import Mathlib

/-!
Verification of the Directus deployment/rollback shell-script suite
(sync-code.sh, backup-files.sh, backup-database.sh, deploy-extensions.sh,
deploy.sh, pre-deployment-checks.sh, verify-backup.sh, rollback.sh).

The scripts are embedded shallowly: a file system is a finite association
list from paths (component lists) to file byte contents (strings); each
script's control flow is translated branch-by-branch into a pure function
returning the resulting file-system contents and the process exit code.
External effects that the scripts only consult (tool availability, database
reachability, git state, user confirmation) are oracle fields of an
environment structure.
-/

namespace Deploy

/-- A filesystem path, as its list of components relative to a tree root. -/
abbrev Path := List String

/-- A file tree: an association list from paths to file contents.  Earlier
entries shadow later ones, matching the lookup convention below. -/
abbrev FS := List (Path × String)

/-- Look up the content of the file at path `p`. -/
def fsLookup (fs : FS) (p : Path) : Option String :=
  (fs.find? (fun e => e.1 == p)).map (·.2)

/-- Matching of one rsync exclude-pattern against one path component.
The scripts only use four pattern shapes: `name/` (directory name),
`*suffix`, `base*`, and a literal file name. -/
def patternMatchesComponent (pat comp : String) : Bool :=
  if pat.data.getLast? == some '/' then comp.data == pat.data.dropLast
  else if pat.data.head? == some '*' then pat.data.tail.isSuffixOf comp.data
  else if pat.data.getLast? == some '*' then pat.data.dropLast.isPrefixOf comp.data
  else comp == pat

/-- A path is excluded when any of its components matches any pattern,
which is how rsync applies `--exclude=data/`, `--exclude=*.log`, etc. -/
def excludedBy (pats : List String) (p : Path) : Bool :=
  pats.any fun pat => p.any fun comp => patternMatchesComponent pat comp

/-- The files of `fs` that survive the exclusion patterns. -/
def filterNotExcluded (pats : List String) (fs : FS) : FS :=
  fs.filter fun e => ¬ excludedBy pats e.1

/-- Effect of `rsync <opts> --exclude=... src/ dst/` WITHOUT `--delete`
(the sync-code.sh default options are `--archive --verbose`): non-excluded
source files are copied over, every other destination file stays. -/
def rsyncInto (pats : List String) (src dst : FS) : FS :=
  filterNotExcluded pats src ++
    dst.filter fun e => ¬ (filterNotExcluded pats src).any (fun s => s.1 == e.1)

/-- Effect of `rsync --archive --delete --exclude=... src/ dst/`
(deploy-extensions.sh always passes `--delete`): non-excluded source files
are copied, destination files matching an exclude pattern are protected,
every other destination file is deleted. -/
def rsyncDelete (pats : List String) (src dst : FS) : FS :=
  filterNotExcluded pats src ++ dst.filter fun e => excludedBy pats e.1

/-- Fallback exclude patterns hardcoded in sync-code.sh
`build_exclude_patterns`, used whenever configuration parsing fails. -/
def fallbackExcludePatterns : List String :=
  ["data/", "uploads/", "backups/", ".env*", "*.log", "node_modules/"]

/-! ## sync-code.sh -/

/-- Environment oracle for one sync-code.sh invocation: configuration and
tool state, directory facts, git state and the flag values. -/
structure SyncCodeEnv where
  configExists : Bool
  configValidJson : Bool
  rsyncAvailable : Bool
  python3Available : Bool
  sourceExists : Bool
  sourceReadable : Bool
  targetGiven : Bool
  targetParentExists : Bool
  targetWritable : Bool
  sourceIsGitRepo : Bool
  gitHasUncommitted : Bool
  force : Bool
  dryRun : Bool
  useStaging : Bool

/-- Outcome of sync-code.sh: the final contents of `TARGET_DIR`, the
contents of the side directory `TARGET_DIR.backup-<ts>` created by
`promote_staging` (none when no promotion happened), and the exit code. -/
structure SyncCodeResult where
  target : FS
  sideBackup : Option FS
  exit : Nat
  deriving DecidableEq

/-- Embedding of sync-code.sh `main`: `load_config`, `check_prerequisites`,
`validate_directories`, `validate_source_changes`, then
`create_staging_directory`, `perform_sync`, `set_permissions` and
`promote_staging`.  In staged mode the staging directory starts empty, is
filled by rsync from the source with the exclude patterns, and
`promote_staging` then moves the whole current target aside to
`TARGET_DIR.backup-<ts>` and renames the staging copy into place.
`set_permissions` only changes mode bits, so contents are unaffected. -/
def syncCode_main (e : SyncCodeEnv) (pats : List String) (source target : FS) :
    SyncCodeResult :=
  if e.configExists = false then ⟨target, none, 1⟩
  else if e.configValidJson = false then ⟨target, none, 1⟩
  else if e.rsyncAvailable = false then ⟨target, none, 1⟩
  else if e.python3Available = false then ⟨target, none, 1⟩
  else if e.sourceExists = false then ⟨target, none, 1⟩
  else if e.sourceReadable = false then ⟨target, none, 1⟩
  else if e.targetGiven = false then ⟨target, none, 1⟩
  else if e.dryRun && (e.targetParentExists = false) then ⟨target, none, 1⟩
  else if (e.dryRun = false) && (e.targetWritable = false) then ⟨target, none, 1⟩
  else if e.sourceIsGitRepo && (e.force = false) && e.gitHasUncommitted then
    ⟨target, none, 1⟩
  else if e.dryRun then ⟨target, none, 0⟩
  else if e.useStaging then ⟨rsyncInto pats source [], some target, 0⟩
  else ⟨rsyncInto pats source target, none, 0⟩

/-- A sync-code.sh environment in which every validation passes, in live
(non-dry-run) default staged mode. -/
def liveStagedEnv : SyncCodeEnv :=
  { configExists := true, configValidJson := true, rsyncAvailable := true
    python3Available := true, sourceExists := true, sourceReadable := true
    targetGiven := true, targetParentExists := true, targetWritable := true
    sourceIsGitRepo := false, gitHasUncommitted := false, force := false
    dryRun := false, useStaging := true }

/-- Concrete source tree for the preservation scenario: code only. -/
def c1Source : FS := [(["index.js"], "new code")]

/-- Concrete production target for the preservation scenario: preserved
`uploads/` and `data/` subtrees plus the old code. -/
def c1Target : FS :=
  [(["uploads", "img.png"], "prod image"),
   (["data", "db.sqlite"], "prod db"),
   (["index.js"], "old code")]

/-- C1: the claim states that a default staged sync (and every rollback)
leaves the byte content of every file under a preserved directory (uploads/,
data/) of the target unchanged in place.  The code violates this: with the
fallback exclusion policy (which lists data/ and uploads/), a successful
staged sync of a code-only source over a target holding
`uploads/img.png` and `data/db.sqlite` exits 0 yet promotes a target that
contains neither file; the pre-existing content survives only in the side
directory `TARGET_DIR.backup-<ts>`, not in the live target. -/
theorem C1_staged_sync_drops_preserved :
    fsLookup c1Target ["uploads", "img.png"] = some "prod image" ∧
    fsLookup c1Target ["data", "db.sqlite"] = some "prod db" ∧
    (syncCode_main liveStagedEnv fallbackExcludePatterns
        c1Source c1Target).exit = 0 ∧
    fsLookup (syncCode_main liveStagedEnv
        fallbackExcludePatterns c1Source c1Target).target
      ["uploads", "img.png"] = none ∧
    fsLookup (syncCode_main liveStagedEnv
        fallbackExcludePatterns c1Source c1Target).target
      ["data", "db.sqlite"] = none ∧
    (syncCode_main liveStagedEnv fallbackExcludePatterns
        c1Source c1Target).sideBackup = some c1Target := by
  decide

/-! ## rollback.sh -/

/-- Facts about the candidate backup directory passed to rollback.sh:
whether `backup-metadata.json` exists and parses, the size of `database.sql`
when that file exists, whether a `files/` payload directory exists, and the
timestamp-age data used by `verify_backup_integrity`.  `timestampParses`
records whether python's `datetime.fromisoformat` accepts the metadata
timestamp (the embedded python prints 999 on any parse failure, and the
`%Y-%m-%dT%H-%M-%S` format the backup scripts write does not parse). -/
structure RollbackBackup where
  metadataPresent : Bool
  metadataValidJson : Bool
  databaseSqlSize : Option Nat
  filesDirPresent : Bool
  timestampParses : Bool
  ageDays : Nat

/-- The `days_ago` value printed by the python snippet in
`verify_backup_integrity`: the real age when the metadata loads and the
timestamp parses, and the fallback 999 otherwise. -/
def computedAgeDays (b : RollbackBackup) : Nat :=
  if b.metadataValidJson && b.timestampParses then b.ageDays else 999

/-- Embedding of rollback.sh `verify_backup_integrity` (outside dry-run):
one issue for a missing metadata sidecar, or one for metadata that is not
valid JSON; one issue for a `database.sql` that exists but is empty; one
issue when metadata exists and the computed age exceeds 30 days.  The
`files/` directory check only logs. -/
def verify_backup_integrity (dryRun : Bool) (b : RollbackBackup) : Nat :=
  if dryRun then 0
  else
    (if b.metadataPresent = false then 1
     else if b.metadataValidJson = false then 1 else 0)
    + (match b.databaseSqlSize with
       | some 0 => 1
       | _ => 0)
    + (if b.metadataPresent = true ∧ computedAgeDays b > 30 then 1 else 0)

/-- Flags and environment oracle for one rollback.sh invocation:
`validate_parameters` facts, then the confirmation and the success of the
mutating steps (`backup_current_state`, `perform_rollback`,
`verify_rollback`). -/
structure RollbackArgs where
  backupDirGiven : Bool
  targetGiven : Bool
  backupDirExists : Bool
  backupDirReadable : Bool
  targetDirExists : Bool
  targetDirWritable : Bool
  dryRun : Bool
  force : Bool
  skipConfirmation : Bool
  verifyOnly : Bool
  userConfirms : Bool
  backupCurrentOk : Bool
  restoreOk : Bool
  verifyRestoreOk : Bool

/-- Embedding of rollback.sh `validate_parameters`: every failing branch
exits with code 2; target-directory checks are skipped in verify-only
mode. -/
def validate_parameters (a : RollbackArgs) : Option Nat :=
  if a.backupDirGiven = false then some 2
  else if a.targetGiven = false ∧ a.verifyOnly = false then some 2
  else if a.backupDirExists = false then some 2
  else if a.backupDirReadable = false then some 2
  else if a.verifyOnly = false ∧ a.targetDirExists = false then some 2
  else if a.verifyOnly = false ∧ a.targetDirWritable = false then some 2
  else none

/-- Outcome of rollback.sh: exit code, and whether `perform_rollback`
promoted a restored tree into the target. -/
structure RollbackOutcome where
  exit : Nat
  performedRestore : Bool
  deriving DecidableEq

/-- Embedding of rollback.sh `main`: parameter validation, then
`verify_backup_integrity` (any nonzero issue count aborts with exit 2),
the verify-only early exit 0, `get_user_confirmation` (skipped when
`--force` or `SKIP_CONFIRMATION` or in dry-run; refusal exits 3),
`backup_current_state` and `perform_rollback` and `verify_rollback`
(failures exit 1).  In dry-run every mutating step is an echo. -/
def rollback_main (a : RollbackArgs) (b : RollbackBackup) : RollbackOutcome :=
  match validate_parameters a with
  | some c => ⟨c, false⟩
  | none =>
    if verify_backup_integrity a.dryRun b ≠ 0 then ⟨2, false⟩
    else if a.verifyOnly then ⟨0, false⟩
    else if ¬ (a.force = true ∨ a.skipConfirmation = true ∨ a.dryRun = true ∨
               a.userConfirms = true) then ⟨3, false⟩
    else if a.dryRun then ⟨0, false⟩
    else if a.backupCurrentOk = false then ⟨1, false⟩
    else if a.restoreOk = false then ⟨1, false⟩
    else if a.verifyRestoreOk = false then ⟨1, true⟩
    else ⟨0, true⟩

/-- Fully valid live rollback invocation with `--force` set. -/
def c3Args : RollbackArgs :=
  { backupDirGiven := true, targetGiven := true, backupDirExists := true
    backupDirReadable := true, targetDirExists := true, targetDirWritable := true
    dryRun := false, force := true, skipConfirmation := false
    verifyOnly := false, userConfirms := true, backupCurrentOk := true
    restoreOk := true, verifyRestoreOk := true }

/-- An otherwise fully valid files backup whose metadata timestamp is 31
days old (and parseable). -/
def c3Backup : RollbackBackup :=
  { metadataPresent := true, metadataValidJson := true
    databaseSqlSize := none, filesDirPresent := true
    timestampParses := true, ageDays := 31 }

/-- C3: the claim (and the source's own comment "warn if > 30 days")
states a stale-but-valid backup only triggers a warning and the rollback
can proceed past verification.  The code instead counts the staleness as
an issue: `verify_backup_integrity` returns 1 for a fully valid files
backup that is 31 days old, so `main` aborts with exit 2 before restoring,
even under `--force`. -/
theorem C3_stale_backup_aborts :
    verify_backup_integrity false c3Backup = 1 ∧
    rollback_main c3Args c3Backup = ⟨2, false⟩ := by
  decide

/-- Every exit taken inside `validate_parameters` carries code 2. -/
theorem rollback_validate_codes (a : RollbackArgs) (c : Nat)
    (h : validate_parameters a = some c) : c = 2 := by
  unfold validate_parameters at h
  repeat' split at h
  all_goals simp_all

/-- C7: whenever live backup verification reports at least one issue, the
script exits with code 2 and performs no restore — `--force` and the
confirmation oracle never enter into it — and in `--verify-only` mode
(with valid parameters) the exit code is 0 exactly when the issue count is
0. -/
theorem C7_verification_gates_restore (a : RollbackArgs) (b : RollbackBackup)
    (hdry : a.dryRun = false) :
    (0 < verify_backup_integrity false b → rollback_main a b = ⟨2, false⟩) ∧
    (a.verifyOnly = true → validate_parameters a = none →
      ((rollback_main a b).exit = 0 ↔ verify_backup_integrity false b = 0)) := by
  constructor
  · intro hv
    unfold rollback_main
    cases hpar : validate_parameters a with
    | some c =>
      have hc := rollback_validate_codes a c hpar
      simp [hc]
    | none =>
      rw [hdry]
      have hne : verify_backup_integrity false b ≠ 0 := Nat.pos_iff_ne_zero.mp hv
      simp [hne]
  · intro hvo hpar
    unfold rollback_main
    rw [hpar, hdry]
    by_cases hz : verify_backup_integrity false b = 0
    · simp [hz, hvo]
    · simp [hz]

/-- Valid verify-only invocation used to witness C7. -/
def c7VerifyArgs : RollbackArgs :=
  { backupDirGiven := true, targetGiven := false, backupDirExists := true
    backupDirReadable := true, targetDirExists := false, targetDirWritable := false
    dryRun := false, force := true, skipConfirmation := false
    verifyOnly := true, userConfirms := false, backupCurrentOk := true
    restoreOk := true, verifyRestoreOk := true }

/-- Candidate backup missing its metadata sidecar, used to witness C7. -/
def c7Backup : RollbackBackup :=
  { metadataPresent := false, metadataValidJson := false
    databaseSqlSize := none, filesDirPresent := true
    timestampParses := false, ageDays := 0 }

/-- Live `--force` invocation used to witness C7. -/
def c7ForceArgs : RollbackArgs :=
  { backupDirGiven := true, targetGiven := true, backupDirExists := true
    backupDirReadable := true, targetDirExists := true, targetDirWritable := true
    dryRun := false, force := true, skipConfirmation := false
    verifyOnly := false, userConfirms := false, backupCurrentOk := true
    restoreOk := true, verifyRestoreOk := true }

/-- Witness for C7 at a backup whose metadata sidecar is missing: the
forced live run exits 2 without restoring, and the verify-only run does
not exit 0. -/
theorem C7_witness :
    rollback_main c7ForceArgs c7Backup = ⟨2, false⟩ ∧
    ((rollback_main c7VerifyArgs c7Backup).exit = 0 ↔
      verify_backup_integrity false c7Backup = 0) :=
  ⟨(C7_verification_gates_restore c7ForceArgs c7Backup rfl).1 (by decide),
   (C7_verification_gates_restore c7VerifyArgs c7Backup rfl).2 rfl (by decide)⟩

/-! ## backup-database.sh -/

/-- Environment oracle for one backup-database.sh invocation.
`dumpResult` is the outcome of the `pg_dump` call: `none` when pg_dump
exits nonzero (which `set -euo pipefail` turns into script failure), and
`some n` when it exits 0 having written an `n`-byte `database.sql`. -/
structure DbBackupEnv where
  envProductionFileExists : Bool
  pgDumpAvailable : Bool
  connectionOk : Bool
  dryRun : Bool
  dumpResult : Option Nat

/-- Embedding of backup-database.sh: the top-level `.env.production`
check, `check_prerequisites` (pg_dump presence; the DB_DATABASE/DB_USER
emptiness checks can never fire because both variables carry nonempty
defaults), `test_connection`, then `create_database_dump`,
`create_backup_summary` and the success log.  Returns the exit code.
There is no check of the dump's size anywhere: after a zero-exit pg_dump
the script writes metadata (recording whatever size resulted) and reports
"Database backup completed successfully". -/
def backupDatabase_main (e : DbBackupEnv) : Nat :=
  if e.envProductionFileExists = false then 1
  else if e.pgDumpAvailable = false then 1
  else if e.dryRun then 0
  else if e.connectionOk = false then 1
  else
    match e.dumpResult with
    | none => 1
    | some _ => 0

/-- Invocation whose pg_dump run exits 0 but writes a zero-byte dump. -/
def c2Env : DbBackupEnv :=
  { envProductionFileExists := true, pgDumpAvailable := true
    connectionOk := true, dryRun := false, dumpResult := some 0 }

/-- Counterexample to C2: the claim says a zero-byte dump makes the stage
fail with a nonzero exit status; the script in fact exits 0 and reports
success on a zero-byte dump, as it checks only pg_dump's own exit
status. -/
theorem C2_zero_byte_dump_reports_success :
    backupDatabase_main c2Env = 0 ∧ ¬ backupDatabase_main c2Env ≠ 0 := by
  decide

/-- C2 as amended: the backup stage's exit status is independent of the
dump size — whenever prerequisites and the connection test pass and
pg_dump itself exits 0, the stage exits 0 and reports success, for every
dump size including zero.  Zero-byte dumps are only flagged downstream
(verify-backup.sh counts an empty `database.sql` as an issue, and
rollback.sh's verification does the same). -/
theorem C2_amended_success_ignores_dump_size (e : DbBackupEnv) (n : Nat)
    (henv : e.envProductionFileExists = true)
    (hpg : e.pgDumpAvailable = true)
    (hconn : e.connectionOk = true)
    (hdump : e.dumpResult = some n) :
    backupDatabase_main e = 0 := by
  unfold backupDatabase_main
  rw [henv, hpg, hconn, hdump]
  by_cases hdr : e.dryRun <;> simp [hdr]

/-- Witness for the amended C2 at the zero-byte dump. -/
theorem C2_amended_witness : backupDatabase_main c2Env = 0 :=
  C2_amended_success_ignores_dump_size c2Env 0 rfl rfl rfl rfl

/-! ## pre-deployment-checks.sh, database category -/

/-- Environment oracle for `check_database` in pre-deployment-checks.sh:
whether the category is enabled, dry-run, whether an environment file was
found and sourced, whether `DB_HOST` and `DB_DATABASE` are set by it,
whether `pg_isready` is installed, and the probe's outcome. -/
structure DbCheckEnv where
  checkDatabase : Bool
  dryRun : Bool
  envFileFound : Bool
  dbHostSet : Bool
  dbDatabaseSet : Bool
  pgIsReadyAvailable : Bool
  connectionOk : Bool

/-- Embedding of `check_database`: returns the issue count the function
contributes to the pre-deployment total.  A missing environment file, or
missing `DB_HOST`/`DB_DATABASE` credentials, each count as one issue; with
credentials present the probe is attempted only when `pg_isready` exists
and only a failed probe counts. -/
def check_database (e : DbCheckEnv) : Nat :=
  if e.checkDatabase = false then 0
  else if e.dryRun then 0
  else if e.envFileFound = false then 1
  else if e.dbHostSet = true ∧ e.dbDatabaseSet = true then
    if e.pgIsReadyAvailable then (if e.connectionOk then 0 else 1) else 0
  else 1

/-- Enabled live database check with an environment file that sets no
database credentials. -/
def c4Env : DbCheckEnv :=
  { checkDatabase := true, dryRun := false, envFileFound := true
    dbHostSet := false, dbDatabaseSet := false
    pgIsReadyAvailable := true, connectionOk := true }

/-- Counterexample to C4: the claim says that with the database category
enabled and no credentials present the check is skipped and contributes
zero to the failed-check total; the code instead logs "Database
credentials not found in environment" and contributes one failed check. -/
theorem C4_missing_credentials_counted :
    check_database c4Env = 1 ∧ (1 : Nat) ≠ 0 := by
  decide

/-- C4 as amended: with the database category enabled and not in dry-run,
the absence of connection credentials — either no environment file at all,
or a sourced file that leaves `DB_HOST` or `DB_DATABASE` unset — makes
`check_database` contribute exactly one failed check to the total (so the
checks as a whole cannot pass).  The check contributes zero without
credentials only when the category is disabled or in dry-run; with
credentials present, a missing `pg_isready` yields a skip. -/
theorem C4_amended_missing_credentials_fail (e : DbCheckEnv)
    (hon : e.checkDatabase = true) (hdry : e.dryRun = false)
    (hcred : e.envFileFound = false ∨ e.dbHostSet = false ∨
             e.dbDatabaseSet = false) :
    check_database e = 1 := by
  unfold check_database
  rw [hon, hdry]
  rcases hcred with h | h | h <;> simp [h]

/-- Witness for the amended C4 at the credential-less environment. -/
theorem C4_amended_witness : check_database c4Env = 1 :=
  C4_amended_missing_credentials_fail c4Env rfl rfl (Or.inr (Or.inl rfl))

/-! ## deploy-extensions.sh -/

/-- One subdirectory of the plugins root: its name, whether it carries a
`package.json` manifest, whether that manifest declares dependencies, and
whether installing those dependencies would succeed. -/
structure Extension where
  name : String
  hasPackageJson : Bool
  hasDeps : Bool
  depsInstallOk : Bool
  deriving DecidableEq

/-- Embedding of `scan_extensions`: every immediate subdirectory of the
source extensions directory, skipping names that start with a dot. -/
def scan_extensions (exts : List Extension) : List Extension :=
  exts.filter fun x => ¬ (x.name.data.head? == some '.')

/-- Embedding of `validate_extension`: only the `package.json` presence
check can fail; the directus-keyword and dist-directory checks merely
log. -/
def validate_extension (x : Extension) : Bool :=
  x.hasPackageJson

/-- Embedding of the per-extension loop in deploy-extensions.sh `main`
(live mode): for each scanned extension, `deploy_extension` (which
validates first and on failure marks `deployment_failed` and continues to
the next extension), then `install_extension_dependencies` (whose failure
also marks `deployment_failed` but leaves the extension deployed).
Returns the deployed extension names and the `deployment_failed` flag. -/
def deployExtensions_loop (installDeps : Bool) :
    List Extension → List String × Bool
  | [] => ([], false)
  | x :: rest =>
    let post := deployExtensions_loop installDeps rest
    if validate_extension x then
      (x.name :: post.1,
        (installDeps && x.hasDeps && !x.depsInstallOk) || post.2)
    else
      (post.1, true)

/-- Environment oracle for one deploy-extensions.sh invocation. -/
structure ExtDeployEnv where
  configExists : Bool
  configValidJson : Bool
  sourceExists : Bool
  targetGiven : Bool
  targetWritable : Bool
  dryRun : Bool
  installDeps : Bool

/-- Outcome of deploy-extensions.sh: which extensions were synced into the
target, and the exit code. -/
structure ExtDeployOutcome where
  deployed : List String
  exit : Nat
  deriving DecidableEq

/-- Embedding of deploy-extensions.sh `main`: `load_config`,
`validate_directories`, `scan_extensions`, the per-extension loop, then
`verify_deployment` (an extension whose target directory or manifest is
missing — exactly the ones whose deployment was skipped — is a failure)
and the aggregate exit: 1 when `deployment_failed` was ever set, else 0.
In dry-run the loop still validates each extension but deploys nothing. -/
def deployExtensions_main (e : ExtDeployEnv) (exts : List Extension) :
    ExtDeployOutcome :=
  if e.configExists = false then ⟨[], 1⟩
  else if e.configValidJson = false then ⟨[], 1⟩
  else if e.sourceExists = false then ⟨[], 1⟩
  else if e.targetGiven = false then ⟨[], 1⟩
  else if e.dryRun = false ∧ e.targetWritable = false then ⟨[], 1⟩
  else
    let scanned := scan_extensions exts
    if e.dryRun then
      ⟨[], if scanned.any (fun x => validate_extension x = false) then 1 else 0⟩
    else
      let res := deployExtensions_loop e.installDeps scanned
      let verifyFailed := scanned.any fun x => (res.1.contains x.name) = false
      ⟨res.1, if res.2 || verifyFailed then 1 else 0⟩

/-- A scanned extension without its manifest forces the
`deployment_failed` flag, wherever it sits in the list. -/
theorem deployLoop_failed_of_invalid (d : Bool) (l : List Extension)
    (x : Extension) (hx : x ∈ l) (hbad : validate_extension x = false) :
    (deployExtensions_loop d l).2 = true := by
  induction l with
  | nil => cases hx
  | cons a rest ih =>
    rcases List.mem_cons.mp hx with rfl | hmem
    · simp [deployExtensions_loop, hbad]
    · by_cases hp : validate_extension a <;>
        simp [deployExtensions_loop, hp, ih hmem]

/-- Every scanned extension that passes validation ends up deployed. -/
theorem deployLoop_deploys_valid (d : Bool) (l : List Extension)
    (x : Extension) (hx : x ∈ l) (hok : validate_extension x = true) :
    x.name ∈ (deployExtensions_loop d l).1 := by
  induction l with
  | nil => cases hx
  | cons a rest ih =>
    rcases List.mem_cons.mp hx with rfl | hmem
    · simp [deployExtensions_loop, hok]
    · by_cases hp : validate_extension a <;>
        simp [deployExtensions_loop, hp]
      · exact Or.inr (ih hmem)
      · exact ih hmem

/-- C8: on a plugins root where some non-hidden plugin lacks its
`package.json`, the live run reports overall failure (exit 1) yet still
deploys every valid plugin — no early abort. -/
theorem C8_manifestless_plugin_no_early_abort (e : ExtDeployEnv)
    (exts : List Extension) (bad : Extension)
    (henv : e.configExists = true ∧ e.configValidJson = true ∧
            e.sourceExists = true ∧ e.targetGiven = true ∧
            e.targetWritable = true ∧ e.dryRun = false)
    (hmem : bad ∈ scan_extensions exts)
    (hbad : validate_extension bad = false) :
    (deployExtensions_main e exts).exit = 1 ∧
    ∀ x ∈ scan_extensions exts, validate_extension x = true →
      x.name ∈ (deployExtensions_main e exts).deployed := by
  obtain ⟨h1, h2, h3, h4, h5, h6⟩ := henv
  unfold deployExtensions_main
  rw [h1, h2, h3, h4, h5, h6]
  simp only [Bool.true_eq_false, if_false, false_and, Bool.false_eq_true,
    and_false]
  constructor
  · have hfail := deployLoop_failed_of_invalid e.installDeps
      (scan_extensions exts) bad hmem hbad
    simp [hfail]
  · intro x hx hok
    simpa using deployLoop_deploys_valid e.installDeps
      (scan_extensions exts) x hx hok

/-- Live deploy-extensions.sh environment with all validations passing. -/
def c8Env : ExtDeployEnv :=
  { configExists := true, configValidJson := true, sourceExists := true
    targetGiven := true, targetWritable := true, dryRun := false
    installDeps := true }

/-- Three non-hidden plugins, the first lacking its manifest. -/
def c8Exts : List Extension :=
  [{ name := "alpha", hasPackageJson := false, hasDeps := false,
     depsInstallOk := true },
   { name := "beta", hasPackageJson := true, hasDeps := false,
     depsInstallOk := true },
   { name := "gamma", hasPackageJson := true, hasDeps := true,
     depsInstallOk := true }]

/-- Witness for C8: with `alpha` missing its manifest, the stage exits 1
while `beta` and `gamma` are still deployed. -/
theorem C8_witness :
    (deployExtensions_main c8Env c8Exts).exit = 1 ∧
    ∀ x ∈ scan_extensions c8Exts, validate_extension x = true →
      x.name ∈ (deployExtensions_main c8Env c8Exts).deployed :=
  C8_manifestless_plugin_no_early_abort c8Env c8Exts
    { name := "alpha", hasPackageJson := false, hasDeps := false,
      depsInstallOk := true }
    ⟨rfl, rfl, rfl, rfl, rfl, rfl⟩ (by decide) rfl

/-- Default extension exclude patterns hardcoded in
`get_extension_exclude_patterns`, used when configuration parsing fails. -/
def defaultExtensionExcludePatterns : List String :=
  ["node_modules/", ".git/", "*.log", ".tmp/", ".cache/"]

/-- Embedding of the per-plugin rsync in `deploy_extension`: the command
is always `rsync --archive --verbose --delete` plus the exclude patterns,
from the source plugin directory onto the target plugin directory. -/
def deploy_extension_sync (pats : List String) (src tgt : FS) : FS :=
  rsyncDelete pats src tgt

/-- A lookup in an association list is `none` exactly when no entry keys
the path. -/
theorem fsLookup_eq_none_iff (fs : FS) (p : Path) :
    fsLookup fs p = none ↔ ∀ e ∈ fs, (e.1 == p) = false := by
  simp [fsLookup, List.find?_eq_none]

/-- Appending a tree whose lookup misses leaves the lookup of the head
tree unchanged. -/
theorem fsLookup_append (a b : FS) (p : Path) :
    fsLookup (a ++ b) p = ((fsLookup a p).orElse fun _ => fsLookup b p) := by
  induction a with
  | nil => simp [fsLookup]
  | cons e rest ih =>
    by_cases h : (e.1 == p) = true <;>
      simp [fsLookup, List.find?, h]
    simpa [fsLookup] using ih

/-- C10: the per-plugin sync is delete-extraneous.  For every path not
matching an exclude pattern, the synced target agrees with the source
minus exclusions; in particular a non-excluded file present in the target
but absent from the source plugin directory is gone afterwards. -/
theorem C10_extension_sync_delete_extraneous (pats : List String)
    (src tgt : FS) (p : Path) (hx : excludedBy pats p = false) :
    fsLookup (deploy_extension_sync pats src tgt) p =
      fsLookup (filterNotExcluded pats src) p ∧
    (fsLookup src p = none →
      fsLookup (deploy_extension_sync pats src tgt) p = none) := by
  have htgt : fsLookup (tgt.filter fun e => excludedBy pats e.1) p = none := by
    rw [fsLookup_eq_none_iff]
    intro e he
    have hkept := (List.mem_filter.mp he).2
    by_contra hbeq
    have hep : e.1 = p := by
      have := eq_of_beq (a := e.1) (b := p) (by simpa using hbeq)
      exact this
    rw [hep] at hkept
    rw [hkept] at hx
    exact Bool.true_eq_false.mp hx
  constructor
  · rw [deploy_extension_sync, rsyncDelete, fsLookup_append, htgt]
    cases fsLookup (filterNotExcluded pats src) p <;> rfl
  · intro hsrc
    have hfil : fsLookup (filterNotExcluded pats src) p = none := by
      rw [fsLookup_eq_none_iff]
      intro e he
      exact (fsLookup_eq_none_iff src p).mp hsrc e (List.mem_filter.mp he).1
    rw [deploy_extension_sync, rsyncDelete, fsLookup_append, htgt, hfil]
    rfl

/-- Source plugin tree for the C10 witness: the stale file is absent. -/
def c10Src : FS := [(["dist", "index.js"], "built v2")]

/-- Target plugin tree for the C10 witness: holds a stale file plus a
`node_modules/` file protected by the exclude patterns. -/
def c10Tgt : FS :=
  [(["dist", "stale.js"], "built v1"),
   (["node_modules", "dep", "index.js"], "installed dep")]

/-- Witness for C10: after the per-plugin sync with the default extension
exclude patterns, the stale non-excluded target file is removed and the
target agrees with the source minus exclusions at that path. -/
theorem C10_witness :
    fsLookup (deploy_extension_sync defaultExtensionExcludePatterns
        c10Src c10Tgt) ["dist", "stale.js"] =
      fsLookup (filterNotExcluded defaultExtensionExcludePatterns c10Src)
        ["dist", "stale.js"] ∧
    (fsLookup c10Src ["dist", "stale.js"] = none →
      fsLookup (deploy_extension_sync defaultExtensionExcludePatterns
        c10Src c10Tgt) ["dist", "stale.js"] = none) :=
  C10_extension_sync_delete_extraneous defaultExtensionExcludePatterns
    c10Src c10Tgt ["dist", "stale.js"] (by decide)

/-! ## backup-files.sh -/

/-- Exclude patterns built by backup-files.sh `build_exclude_patterns`:
cache-related patterns when cache exclusion is on (the default), and the
system-file and VCS patterns always. -/
def backupFilesExcludePatterns (excludeCache : Bool) : List String :=
  (if excludeCache then
    [".cache/", "cache/", "*.cache", "thumbs/", "thumbnails/",
     ".tmp/", "tmp/", "*.tmp"]
   else []) ++ [".DS_Store", "Thumbs.db", ".git/", ".svn/"]

/-- Embedding of `count_files`: `find "$SOURCE_DIR" -type f | wc -l`,
a recursive file count of the SOURCE directory. -/
def count_files (src : FS) : Nat :=
  src.length

/-- Embedding of `backup_files_rsync`: the `files/` payload is the source
tree copied with the exclude patterns applied. -/
def backup_files_rsync (excludeCache : Bool) (src : FS) : FS :=
  filterNotExcluded (backupFilesExcludePatterns excludeCache) src

/-- Embedding of `backup_files_cp` (the fallback when rsync is absent):
`cp -r "$SOURCE_DIR/"*` copies only the non-dotfile top-level entries,
then `find`-based deletions remove cache directories and files (when
cache exclusion is on) and the system files. -/
def backup_files_cp (excludeCache : Bool) (src : FS) : FS :=
  let copied := src.filter fun e =>
    match e.1 with
    | [] => false
    | c :: _ => ¬ (c.data.head? == some '.')
  let afterCache :=
    if excludeCache then
      copied.filter fun e =>
        ¬ excludedBy [".cache/", "cache/", "*.cache", "thumbs/",
                      "thumbnails/"] e.1
    else copied
  afterCache.filter fun e => ¬ excludedBy [".DS_Store", "Thumbs.db"] e.1

/-- Environment oracle for one backup-files.sh invocation. -/
structure FileBackupEnv where
  rsyncAvailable : Bool
  sourceExists : Bool
  sourceReadable : Bool
  dryRun : Bool
  excludeCache : Bool

/-- Outcome of backup-files.sh: the `files/` payload of the created
backup, the `file_count` recorded in `backup-metadata.json` (both `none`
when no backup was created), and the exit code. -/
structure FileBackupResult where
  payload : Option FS
  metaFileCount : Option Nat
  exit : Nat
  deriving DecidableEq

/-- Embedding of backup-files.sh `main`: `check_prerequisites` (never
fails), `validate_source`, then the backup via rsync or the cp fallback,
and `create_backup_metadata`, whose `file_count` field is `count_files` —
a scan of the SOURCE directory, not of the payload. -/
def backupFiles_main (e : FileBackupEnv) (src : FS) : FileBackupResult :=
  if e.sourceExists = false then ⟨none, none, 1⟩
  else if e.sourceReadable = false then ⟨none, none, 1⟩
  else if e.dryRun then ⟨none, none, 0⟩
  else if e.rsyncAvailable then
    ⟨some (backup_files_rsync e.excludeCache src), some (count_files src), 0⟩
  else
    ⟨some (backup_files_cp e.excludeCache src), some (count_files src), 0⟩

/-! ## verify-backup.sh -/

/-- Grep-level facts about a `database.sql` dump file. -/
structure DumpFile where
  size : Nat
  hasPgHeader : Bool
  hasCreate : Bool
  hasInsert : Bool
  hasCopy : Bool
  deriving DecidableEq

/-- A backup directory as verify-backup.sh examines it: sidecar and
README presence, the metadata fields, the optional `database.sql` and the
optional `files/` payload. -/
structure BackupDir where
  metadataPresent : Bool
  metadataValidJson : Bool
  readmePresent : Bool
  backupType : String
  timestampValidFormat : Bool
  fileCountMeta : Nat
  database : Option DumpFile
  files : Option FS
  deriving DecidableEq

/-- Embedding of `verify_backup_structure`: one issue for a missing
metadata sidecar or (when present) invalid JSON, one for a missing
README. -/
def verify_backup_structure (b : BackupDir) : Nat :=
  (if b.metadataPresent = false then 1
   else if b.metadataValidJson = false then 1 else 0)
  + (if b.readmePresent = false then 1 else 0)

/-- Embedding of `verify_database_backup`: a missing `database.sql`
returns 1 immediately; an empty one is an issue; a nonempty one is
checked for the PostgreSQL dump header and for CREATE, INSERT and COPY
statements, one issue each when absent.  The psql syntax validation is
always skipped. -/
def verify_database_backup (b : BackupDir) : Nat :=
  match b.database with
  | none => 1
  | some d =>
    if 0 < d.size then
      (if d.hasPgHeader then 0 else 1)
      + (if d.hasCreate then 0 else 1)
      + (if d.hasInsert then 0 else 1)
      + (if d.hasCopy then 0 else 1)
    else 1

/-- Embedding of `verify_file_backup`: a missing `files/` directory
returns 1 immediately; an empty payload is an issue; outside quick mode a
positive zero-byte file count is an issue and more than ten files over
100MB is an issue. -/
def verify_file_backup (quick : Bool) (b : BackupDir) : Nat :=
  match b.files with
  | none => 1
  | some fs =>
    (if fs.length = 0 then 1 else 0)
    + (if quick = false ∧ 0 < (fs.filter fun e => e.2.length = 0).length
       then 1 else 0)
    + (if quick = false ∧ 10 < (fs.filter fun e => 104857600 < e.2.length).length
       then 1 else 0)

/-- Embedding of `verify_metadata_consistency`: nothing to do without the
sidecar; otherwise the timestamp format check (the python extraction
yields "unknown" when the JSON does not parse, which fails the format
regex), and for a files backup with a payload, the comparison of the
recorded `file_count` (0 when the JSON does not parse) against a fresh
recursive count of `files/`. -/
def verify_metadata_consistency (b : BackupDir) : Nat :=
  if b.metadataPresent = false then 0
  else
    (if b.metadataValidJson = true ∧ b.timestampValidFormat = true
     then 0 else 1)
    + (match b.files with
       | some fs =>
         if (if b.metadataValidJson then b.backupType else "unknown") = "files"
         then
           (if (if b.metadataValidJson then b.fileCountMeta else 0) = fs.length
            then 0 else 1)
         else 0
       | none => 0)

/-- Embedding of verify-backup.sh `main`: the structure check, the
database and file checks as enabled by the flags, the metadata
consistency check; exit 0 exactly when the summed issue count is zero,
else exit 1. -/
def verifyBackup_main (quick checkDb checkFiles : Bool) (b : BackupDir) :
    Nat :=
  if verify_backup_structure b
      + (if checkDb then verify_database_backup b else 0)
      + (if checkFiles then verify_file_backup quick b else 0)
      + verify_metadata_consistency b = 0
  then 0 else 1

/-- Well-formed files backup whose payload holds one nonempty and one
zero-byte file, with a consistent recorded file count. -/
def c9Backup : BackupDir :=
  { metadataPresent := true, metadataValidJson := true, readmePresent := true
    backupType := "files", timestampValidFormat := true, fileCountMeta := 2
    database := none
    files := some [(["a.jpg"], "xx"), (["empty.bin"], "")] }

/-- Counterexample to C9: the claim says a non-empty well-formed file
backup containing a zero-byte individual file still verifies with exit 0;
`verify-backup.sh --files-only` (full, non-quick mode) in fact counts the
zero-byte file as an issue and exits 1. -/
theorem C9_zero_byte_file_fails_verification :
    verifyBackup_main false false true c9Backup = 1 ∧ (1 : Nat) ≠ 0 := by
  decide

/-- C9 as amended: outside quick mode, a files payload containing at
least one zero-byte file always contributes a positive issue count in
`verify_file_backup`, and verify-backup.sh with file checks enabled exits
1 on such a backup — the zero-byte condition is a hard verification
failure, not a pass-with-warning. -/
theorem C9_amended_zero_byte_file_is_hard_failure (b : BackupDir)
    (checkDb : Bool) (fs : FS) (f : Path × String)
    (hfiles : b.files = some fs) (hmem : f ∈ fs) (hzero : f.2.length = 0) :
    0 < verify_file_backup false b ∧
    verifyBackup_main false checkDb true b = 1 := by
  have hzb : 0 < (fs.filter fun e => e.2.length = 0).length :=
    List.length_pos_of_mem (List.mem_filter.mpr ⟨hmem, by simp [hzero]⟩)
  have hvf : 0 < verify_file_backup false b := by
    unfold verify_file_backup
    rw [hfiles]
    simp only [hzb, and_true, true_and, eq_self_iff_true, if_true]
    omega
  refine ⟨hvf, ?_⟩
  have hred : verifyBackup_main false checkDb true b =
      (if verify_backup_structure b
          + (if checkDb then verify_database_backup b else 0)
          + verify_file_backup false b
          + verify_metadata_consistency b = 0
       then 0 else 1) := rfl
  rw [hred, if_neg (by omega)]

/-- Witness for the amended C9 at the concrete two-file payload. -/
theorem C9_amended_witness :
    0 < verify_file_backup false c9Backup ∧
    verifyBackup_main false false true c9Backup = 1 :=
  C9_amended_zero_byte_file_is_hard_failure c9Backup false
    [(["a.jpg"], "xx"), (["empty.bin"], "")] ((["empty.bin"], ""))
    rfl (by decide) rfl

/-- All-valid live backup-files.sh environment with the default cache
exclusion. -/
def c5Env : FileBackupEnv :=
  { rsyncAvailable := true, sourceExists := true, sourceReadable := true
    dryRun := false, excludeCache := true }

/-- Source uploads tree holding one real file and one OS metadata file
that the backup excludes. -/
def c5Source : FS :=
  [(["img.jpg"], "image bytes"), ([".DS_Store"], "finder junk")]

/-- C5: the claim (and the repo's own verification invariant) requires
the recorded `file_count` to equal a fresh recursive count of the
payload.  The code records `count_files` of the SOURCE tree before
exclusions: backing up a source with one real file and a `.DS_Store`
yields metadata count 2 but a one-file payload, and
`verify_metadata_consistency` on the very backup the script just produced
reports a file-count mismatch issue. -/
theorem C5_metadata_count_mismatch :
    (backupFiles_main c5Env c5Source).metaFileCount = some 2 ∧
    ((backupFiles_main c5Env c5Source).payload.getD []).length = 1 ∧
    verify_metadata_consistency
      { metadataPresent := true, metadataValidJson := true
        readmePresent := true, backupType := "files"
        timestampValidFormat := true, fileCountMeta := 2
        database := none
        files := (backupFiles_main c5Env c5Source).payload } = 1 := by
  decide

/-! ## deploy.sh (orchestrator) and pre-deployment-checks.sh -/

/-- Environment oracle for the orchestrator deploy.sh up to and including
`validate_prerequisites`. -/
structure OrchestratorEnv where
  configExists : Bool
  configValidJson : Bool
  rsyncAvailable : Bool
  python3Available : Bool
  sourceExists : Bool
  sourceReadable : Bool
  targetGiven : Bool
  dryRun : Bool
  targetParentExists : Bool
  targetWritable : Bool

/-- Embedding of deploy.sh `main` through `load_configuration` and
`validate_prerequisites`, every failing branch of which exits with code 2
before any mutation of the target; the remainder of the pipeline
(pre-deployment checks, backup, deployment, validation) is the
continuation `rest`, which is only reached when all validation passes. -/
def deploy_main (e : OrchestratorEnv) (rest : FS → FS × Nat) (target : FS) :
    FS × Nat :=
  if e.configExists = false then (target, 2)
  else if e.configValidJson = false then (target, 2)
  else if e.rsyncAvailable = false then (target, 2)
  else if e.python3Available = false then (target, 2)
  else if e.sourceExists = false then (target, 2)
  else if e.sourceReadable = false then (target, 2)
  else if e.targetGiven = false then (target, 2)
  else if e.dryRun = true ∧ e.targetParentExists = false then (target, 2)
  else if e.dryRun = false ∧ e.targetWritable = false then (target, 2)
  else rest target

/-- Environment oracle for pre-deployment-checks.sh
`validate_directories`. -/
structure PreChecksEnv where
  sourceExists : Bool
  sourceReadable : Bool
  targetGiven : Bool
  dryRun : Bool
  targetParentExists : Bool
  targetExists : Bool
  targetWritable : Bool
  parentWritable : Bool

/-- Embedding of pre-deployment-checks.sh `validate_directories`: returns
1 (one failed check) on the first failing condition, 0 when all pass. -/
def preChecks_validate_directories (e : PreChecksEnv) : Nat :=
  if e.sourceExists = false then 1
  else if e.sourceReadable = false then 1
  else if e.targetGiven = false then 1
  else if e.dryRun then (if e.targetParentExists = false then 1 else 0)
  else if e.targetExists then (if e.targetWritable = false then 1 else 0)
  else if e.targetParentExists = false ∨ e.parentWritable = false then 1
  else 0

/-- Embedding of pre-deployment-checks.sh `main`: `validate_directories`
plus the remaining checks (system requirements, disk space, permissions,
database, services, configuration — all read-only, their summed issue
count is the oracle `otherIssues`); exit 0 exactly when the total is
zero, else exit 1. -/
def preChecks_main (e : PreChecksEnv) (otherIssues : Nat) : Nat :=
  if preChecks_validate_directories e + otherIssues = 0 then 0 else 1

/-- Live sync-code.sh invocation whose `--source` does not exist. -/
def c6SyncEnv : SyncCodeEnv :=
  { configExists := true, configValidJson := true, rsyncAvailable := true
    python3Available := true, sourceExists := false, sourceReadable := false
    targetGiven := true, targetParentExists := true, targetWritable := true
    sourceIsGitRepo := false, gitHasUncommitted := false, force := false
    dryRun := false, useStaging := true }

/-- Target tree for the C6 scenario. -/
def c6Target : FS := [(["app.js"], "deployed code")]

/-- Counterexample to C6: the claim says every stage script exits with
code 2 on a nonexistent `--source`; sync-code.sh in fact exits with code
1 there (its `validate_directories` runs `exit 1`), leaving the target
untouched. -/
theorem C6_sync_missing_source_exits_one :
    syncCode_main c6SyncEnv fallbackExcludePatterns [] c6Target =
      ⟨c6Target, none, 1⟩ ∧ (1 : Nat) ≠ 2 := by
  decide

/-- C6 as amended: a nonexistent `--source` is rejected before any
mutation of the target or backup trees by every stage, but with exit code
2 only in the orchestrator; sync-code.sh and backup-files.sh exit 1, and
pre-deployment-checks.sh counts one failed check and exits 1. -/
theorem C6_amended_missing_source_exit_codes
    (se : SyncCodeEnv) (oe : OrchestratorEnv) (fe : FileBackupEnv)
    (pe : PreChecksEnv) (pats : List String) (src tgt : FS)
    (rest : FS → FS × Nat) (otherIssues : Nat)
    (hs1 : se.configExists = true) (hs2 : se.configValidJson = true)
    (hs3 : se.rsyncAvailable = true) (hs4 : se.python3Available = true)
    (hs5 : se.sourceExists = false)
    (ho1 : oe.configExists = true) (ho2 : oe.configValidJson = true)
    (ho3 : oe.rsyncAvailable = true) (ho4 : oe.python3Available = true)
    (ho5 : oe.sourceExists = false)
    (hf : fe.sourceExists = false)
    (hp : pe.sourceExists = false) :
    syncCode_main se pats src tgt = ⟨tgt, none, 1⟩ ∧
    deploy_main oe rest tgt = (tgt, 2) ∧
    backupFiles_main fe src = ⟨none, none, 1⟩ ∧
    preChecks_main pe otherIssues = 1 := by
  refine ⟨?_, ?_, ?_, ?_⟩
  · unfold syncCode_main
    rw [hs1, hs2, hs3, hs4, hs5]
    simp
  · unfold deploy_main
    rw [ho1, ho2, ho3, ho4, ho5]
    simp
  · unfold backupFiles_main
    rw [hf]
    simp
  · unfold preChecks_main preChecks_validate_directories
    rw [hp]
    simp

/-- Orchestrator invocation with a nonexistent `--source`. -/
def c6OrchEnv : OrchestratorEnv :=
  { configExists := true, configValidJson := true, rsyncAvailable := true
    python3Available := true, sourceExists := false, sourceReadable := false
    targetGiven := true, dryRun := false, targetParentExists := true
    targetWritable := true }

/-- File backup invocation with a nonexistent `--source`. -/
def c6FileEnv : FileBackupEnv :=
  { rsyncAvailable := true, sourceExists := false, sourceReadable := false
    dryRun := false, excludeCache := true }

/-- Pre-deployment-checks invocation with a nonexistent `--source`. -/
def c6PreEnv : PreChecksEnv :=
  { sourceExists := false, sourceReadable := false, targetGiven := true
    dryRun := false, targetParentExists := true, targetExists := true
    targetWritable := true, parentWritable := true }

/-- Witness for the amended C6 at concrete missing-source invocations of
all four stages. -/
theorem C6_amended_witness :
    syncCode_main c6SyncEnv fallbackExcludePatterns [] c6Target =
      ⟨c6Target, none, 1⟩ ∧
    deploy_main c6OrchEnv (fun fs => (fs, 0)) c6Target = (c6Target, 2) ∧
    backupFiles_main c6FileEnv [] = ⟨none, none, 1⟩ ∧
    preChecks_main c6PreEnv 0 = 1 :=
  C6_amended_missing_source_exit_codes c6SyncEnv c6OrchEnv c6FileEnv c6PreEnv
    fallbackExcludePatterns [] c6Target (fun fs => (fs, 0)) 0
    rfl rfl rfl rfl rfl rfl rfl rfl rfl rfl rfl rfl

end Deploy
